import Mathlib

/-!
Verification development for the realtime-API client engine (oai-rt-rs).

The definitions below are a shallow embedding of the Rust sources:
  - `src/lib.rs` (client-side validation, base64 length estimation, send path)
  - `src/protocol/server_events.rs` (inbound notification model and its open
    tagged-union codec)
  - `src/protocol/client_events.rs` (outbound command model)
  - `src/sdk/events.rs` (the event classifier)
  - `src/sdk/tools.rs` (tool registry and dispatch)
  - `src/sdk/session.rs` (session actor: lifecycle, barge-in, gating, buffering,
    tool completion)

JSON values (`serde_json::Value`) are modeled by the inductive `Json`; numbers
are carried as integers, since no modeled operation inspects fractional values.
Machine integers (`u32`, `u64`) are modeled as `Nat`: none of the embedded
operations perform arithmetic on them, so overflow is not reachable.
Asynchronous channel sends are modeled as appending to per-channel output lists;
futures are modeled as plain functions.
-/

namespace OaiRt

/-- JSON values, modeling `serde_json::Value`.  Objects keep insertion order as
serde's `Map` does for the purposes of this development; numbers are carried as
integers (no embedded operation reads a fractional number). -/
inductive Json where
  | null : Json
  | bool (b : Bool) : Json
  | num (n : Int) : Json
  | str (s : String) : Json
  | arr (elems : List Json) : Json
  | obj (fields : List (String × Json)) : Json

/-- Hex digit for JSON string escaping (mirrors serde's `\u00XX` control escapes). -/
def hexDigit (n : Nat) : Char :=
  if n < 10 then Char.ofNat (48 + n) else Char.ofNat (87 + n)

/-- Escape one character the way `serde_json` escapes characters inside a JSON
string literal. -/
def escapeJsonChar (c : Char) : String :=
  if c = '"' then "\\\""
  else if c = '\\' then "\\\\"
  else if c = '\n' then "\\n"
  else if c = '\r' then "\\r"
  else if c = '\t' then "\\t"
  else if c.toNat < 32 then
    "\\u00" ++ String.mk [hexDigit (c.toNat / 16), hexDigit (c.toNat % 16)]
  else String.mk [c]

/-- Render a string as a JSON string literal (model of serde's string output). -/
def renderJsonString (s : String) : String :=
  "\"" ++ String.join (s.data.map escapeJsonChar) ++ "\""

mutual
/-- Compact rendering of a JSON value, modeling `serde_json::to_string` (which
is infallible on the values produced by the embedded code). -/
def Json.render : Json → String
  | Json.null => "null"
  | Json.bool true => "true"
  | Json.bool false => "false"
  | Json.num n => toString n
  | Json.str s => renderJsonString s
  | Json.arr elems => "[" ++ Json.renderArr elems ++ "]"
  | Json.obj fields => "\x7b" ++ Json.renderObj fields ++ "\x7d"

/-- Render the elements of a JSON array, comma separated. -/
def Json.renderArr : List Json → String
  | [] => ""
  | [x] => Json.render x
  | x :: xs => Json.render x ++ "," ++ Json.renderArr xs

/-- Render the fields of a JSON object, comma separated. -/
def Json.renderObj : List (String × Json) → String
  | [] => ""
  | [(k, v)] => renderJsonString k ++ ":" ++ Json.render v
  | (k, v) :: fs => renderJsonString k ++ ":" ++ Json.render v ++ "," ++ Json.renderObj fs
end

/-- Local error type: the variants of `error.rs::Error` reachable from the
embedded code paths.  The remaining variants wrap transport/library errors that
are out of scope (§6 of the spec). -/
inductive Error where
  | invalidClientEvent (msg : String) : Error
  | connectionClosed : Error
deriving DecidableEq

/-- `Display` for `Error` (the `thiserror` format strings used by `to_string`). -/
def Error.toMessage : Error → String
  | Error.invalidClientEvent msg => "Invalid client event: " ++ msg
  | Error.connectionClosed => "The connection was closed unexpectedly"

/-! ## Base64 (lib.rs)

`estimate_base64_decoded_len` is embedded verbatim; the `base64` crate's
`STANDARD.decode` is modeled by the reference decoder `b64Decode` below
(RFC 4648 standard alphabet, mandatory padding; lenient about non-canonical
trailing bits, which does not affect the decoded length or the success cases
exercised by the claims). -/

/-- Value of a character in the standard base64 alphabet. -/
def b64Val (c : Char) : Option Nat :=
  let n := c.toNat
  if 65 ≤ n ∧ n ≤ 90 then some (n - 65)
  else if 97 ≤ n ∧ n ≤ 122 then some (n - 97 + 26)
  else if 48 ≤ n ∧ n ≤ 57 then some (n - 48 + 52)
  else if n = 43 then some 62
  else if n = 47 then some 63
  else none

/-- The byte-class test from `estimate_base64_decoded_len` (lib.rs 265-267):
`matches!(b, b'A'..=b'Z' | b'a'..=b'z' | b'0'..=b'9' | b'+' | b'/')`. -/
def isValidBase64Char (c : Char) : Bool :=
  let n := c.toNat
  (65 ≤ n && n ≤ 90) || (97 ≤ n && n ≤ 122) || (48 ≤ n && n ≤ 57) || n == 43 || n == 47

/-- Decode one full (pad-free) base64 quantum into three bytes. -/
def decodeQuantum (a b c d : Char) : Option (List Nat) :=
  match b64Val a, b64Val b, b64Val c, b64Val d with
  | some w, some x, some y, some z =>
      some [w * 4 + x / 16, x % 16 * 16 + y / 4, y % 4 * 64 + z]
  | _, _, _, _ => none

/-- Decode the final base64 quantum, which may carry one or two `=` pads. -/
def decodeFinalQuantum (a b c d : Char) : Option (List Nat) :=
  if d = '=' then
    if c = '=' then
      match b64Val a, b64Val b with
      | some w, some x => some [w * 4 + x / 16]
      | _, _ => none
    else
      match b64Val a, b64Val b, b64Val c with
      | some w, some x, some y => some [w * 4 + x / 16, x % 16 * 16 + y / 4]
      | _, _, _ => none
  else decodeQuantum a b c d

/-- Reference base64 decoder over a character list: quanta of four, padding only
in the final quantum, length a multiple of four. -/
def b64DecodeList : List Char → Option (List Nat)
  | [] => some []
  | a :: b :: c :: d :: rest =>
      match rest with
      | [] => decodeFinalQuantum a b c d
      | _ =>
          match decodeQuantum a b c d, b64DecodeList rest with
          | some bs, some tl => some (bs ++ tl)
          | _, _ => none
  | _ => none

/-- Reference model of `base64::engine::general_purpose::STANDARD.decode`. -/
def b64Decode (s : String) : Option (List Nat) :=
  b64DecodeList s.data

/-- The scanning loop of `estimate_base64_decoded_len` (lib.rs 252-273): walks
the bytes tracking the pad count and whether a pad has been seen; rejects
out-of-alphabet characters and any non-pad character after a pad.  Returns the
pad count. -/
def estimateLoop : List Char → Nat → Bool → Except String Nat
  | [], padding, _ => Except.ok padding
  | c :: rest, padding, seenPadding =>
      if c = '=' then estimateLoop rest (padding + 1) true
      else if seenPadding then
        Except.error "input_audio_buffer.append invalid base64 padding"
      else if isValidBase64Char c then estimateLoop rest padding seenPadding
      else
        Except.error "input_audio_buffer.append invalid base64 character"

/-- `estimate_base64_decoded_len` (lib.rs 244-282).  Strings are modeled at
character granularity; on the accepting region every character is ASCII, where
byte and character counts coincide with the Rust byte-level loop. -/
def estimateBase64DecodedLen (s : String) : Except String Nat :=
  let chars := s.data
  if chars.length % 4 ≠ 0 then
    Except.error "input_audio_buffer.append invalid base64 length"
  else
    match estimateLoop chars 0 false with
    | Except.error e => Except.error e
    | Except.ok padding =>
        if padding > 2 then
          Except.error "input_audio_buffer.append invalid base64 padding length"
        else
          Except.ok (chars.length / 4 * 3 - padding)

/-- `MAX_INPUT_AUDIO_CHUNK_BYTES` (lib.rs 36). -/
def MAX_INPUT_AUDIO_CHUNK_BYTES : Nat := 15 * 1024 * 1024

/-! ## Protocol data model (protocol/models, error.rs)

Payload structs whose internals are never read by any embedded operation
(`Session`, `Usage`, `AudioFormat`, ...) are carried opaquely as their JSON
representation; every field an embedded operation does read is modeled
explicitly. -/

/-- `error.rs::ApiErrorType`. -/
inductive ApiErrorType where
  | InvalidRequestError | RateLimitError | AuthenticationError | ServerErrorKind | Unknown
deriving DecidableEq

/-- `error.rs::ServerError` (the payload of a server-reported error). -/
structure ServerError where
  error_type : ApiErrorType
  code : Option String
  message : String
  param : Option String
  event_id : Option String
deriving DecidableEq

/-- `models::Session` payload, carried opaquely (no embedded operation reads its
fields). -/
structure SessionPayload where
  raw : Json

/-- `models::Usage` payload, carried opaquely. -/
structure Usage where
  raw : Json

/-- `models::AudioFormat`, carried opaquely (its 24 kHz validation is out of the
claims' scope). -/
structure AudioFormat where
  raw : Json

/-- `models::McpError`, carried opaquely. -/
structure McpError where
  raw : Json

/-- `models::McpToolInfo`, carried opaquely. -/
structure McpToolInfo where
  raw : Json

/-- `server_events.rs::RateLimit`, carried opaquely (it contains a float field
and is never read by the embedded operations). -/
structure RateLimit where
  raw : Json

/-- `models::ItemStatus`. -/
inductive ItemStatus where
  | InProgress | Completed | Incomplete
deriving DecidableEq

/-- `models::Role`. -/
inductive Role where
  | User | Assistant | System
deriving DecidableEq

/-- `models::ContentPart` (items.rs 416-446), an open tagged union with an
`Unknown` passthrough.  `AudioPartFormat` is modeled by `AudioFormat` (both are
carried opaquely). -/
inductive ContentPart where
  | InputText (text : String)
  | InputAudio (audio : String) (transcript : Option String) (format : Option AudioFormat)
  | InputImage (image_url : String) (detail : Option String)
  | OutputText (text : String)
  | OutputAudio (audio : Option String) (transcript : Option String) (format : Option AudioFormat)
  | Text (text : String)
  | Audio (audio : Option String) (transcript : Option String) (format : Option AudioFormat)
  | Unknown (value : Json)

/-- `models::Item` (items.rs 9-60), an open tagged union with an `Unknown`
passthrough. -/
inductive Item where
  | Message (id : Option String) (status : Option ItemStatus) (role : Role)
      (content : List ContentPart)
  | FunctionCall (id : Option String) (status : Option ItemStatus) (name : String)
      (call_id : String) (arguments : String)
  | FunctionCallOutput (id : Option String) (call_id : String) (output : String)
  | McpCall (id : Option String) (status : Option ItemStatus) (call_id : String)
      (server_label : String) (name : String) (arguments : String)
      (approval_request_id : Option String) (output : Option String)
      (error : Option McpError)
  | McpListTools (id : Option String) (status : Option ItemStatus) (server_label : String)
      (tools : Option (List McpToolInfo))
  | McpApprovalRequest (id : Option String) (status : Option ItemStatus)
      (server_label : String) (name : String) (arguments : String)
  | McpApprovalResponse (id : Option String) (status : Option ItemStatus)
      (approval_request_id : String) (approve : Bool) (reason : Option String)
  | Unknown (value : Json)

/-- `models::Response` payload.  The session actor reads only its `id` field
(session.rs 607, 619); the remaining fields (status, output, usage, ...) are
never read by any embedded operation and are left unmodeled. -/
structure Response where
  id : String
deriving DecidableEq

/-- `models::SessionUpdate` payload, carried opaquely; its validation
(`validate_session_update`) is a parameter of the embedding. -/
structure SessionUpdatePayload where
  raw : Json

/-- `models::ResponseConfig` payload, carried opaquely; its validation
(`validate_response_config`) is a parameter of the embedding. -/
structure ResponseConfigPayload where
  raw : Json

/-- `models::McpToolConfig`: remote tool descriptor.  Only the two fields read
by `McpToolConfig::validate` are modeled; the others are never read. -/
structure McpToolConfig where
  server_label : String
  server_url : Option String
  connector_id : Option String

/-- `models::Tool` (tools.rs 8-19): the wire-level tool descriptor. -/
inductive Tool where
  | Function (name : String) (description : Option String) (parameters : Json)
  | Mcp (config : McpToolConfig)

/-- `client_events.rs::ClientEvent`: outbound commands. -/
inductive ClientEvent where
  | SessionUpdate (event_id : Option String) (session : SessionUpdatePayload)
  | InputAudioBufferAppend (event_id : Option String) (audio : String)
  | InputAudioBufferCommit (event_id : Option String)
  | InputAudioBufferClear (event_id : Option String)
  | ConversationItemCreate (event_id : Option String) (previous_item_id : Option String)
      (item : Item)
  | ConversationItemRetrieve (event_id : Option String) (item_id : String)
  | ConversationItemTruncate (event_id : Option String) (item_id : String)
      (content_index : Nat) (audio_end_ms : Nat)
  | ConversationItemDelete (event_id : Option String) (item_id : String)
  | ResponseCreate (event_id : Option String) (response : Option ResponseConfigPayload)
  | ResponseCancel (event_id : Option String) (response_id : Option String)
  | OutputAudioBufferClear (event_id : Option String)

/-! ## Inbound notifications (protocol/server_events.rs)

`ServerEvent` is the open tagged union delivered to the session actor; the
strict schema lives in the private `ServerEventRepr` enum whose serde-derived
codec is generated code (not present in the sources) and is therefore a
parameter of the embedding.  Notes on two fields:
  - `InputAudioTranscriptionSegment.start` and `.end` are `f64`s carried
    opaquely as JSON and renamed `startAt`/`endAt` (`end` is reserved in Lean);
  - `InputAudioTranscriptionCompleted` carries a `usage : Option<Usage>` field
    and `ResponseFunctionCallArgumentsDone` a `name : String` field: the
    classifier (`sdk/events.rs` 322-333, 290-305), the session actor
    (`sdk/session.rs` 533) and the tests destructure them, while the copy of
    `server_events.rs` given here omits them; both variants are modeled with
    the fields so those consumers embed as written. -/

/-- `server_events.rs::ServerEvent` (lines 6-262). -/
inductive ServerEvent where
  | Error (event_id : String) (error : ServerError)
  | SessionCreated (event_id : String) (session : SessionPayload)
  | SessionUpdated (event_id : String) (session : SessionPayload)
  | ConversationItemAdded (event_id : String) (previous_item_id : Option String) (item : Item)
  | ConversationItemDone (event_id : String) (previous_item_id : Option String) (item : Item)
  | ConversationItemRetrieved (event_id : String) (item : Item)
  | ConversationItemDeleted (event_id : String) (item_id : String)
  | ConversationItemTruncated (event_id : String) (item_id : String)
      (content_index : Nat) (audio_end_ms : Nat)
  | InputAudioBufferCommitted (event_id : String) (previous_item_id : Option String)
      (item_id : String)
  | InputAudioBufferCleared (event_id : String)
  | InputAudioBufferSpeechStarted (event_id : String) (audio_start_ms : Nat) (item_id : String)
  | InputAudioBufferSpeechStopped (event_id : String) (audio_end_ms : Nat) (item_id : String)
  | InputAudioBufferTimeoutTriggered (event_id : String) (item_id : String)
      (audio_start_ms : Nat) (audio_end_ms : Nat)
  | DtmfEventReceived (event : String) (received_at : Nat)
  | OutputAudioBufferStarted (event_id : String) (response_id : String)
  | OutputAudioBufferStopped (event_id : String) (response_id : String)
  | OutputAudioBufferCleared (event_id : String) (response_id : String)
  | InputAudioTranscriptionDelta (event_id : String) (item_id : String) (content_index : Nat)
      (delta : String) (obfuscation : Option Json) (logprobs : Option Json)
  | InputAudioTranscriptionSegment (event_id : String) (item_id : String) (content_index : Nat)
      (text : String) (id : Option String) (speaker : Option String)
      (startAt : Option Json) (endAt : Option Json)
  | InputAudioTranscriptionFailed (event_id : String) (item_id : String) (content_index : Nat)
      (error : ServerError)
  | InputAudioTranscriptionCompleted (event_id : String) (item_id : String)
      (content_index : Nat) (transcript : String) (usage : Option Usage)
  | McpListToolsInProgress (event_id : String) (item_id : String)
  | McpListToolsCompleted (event_id : String) (item_id : String)
  | McpListToolsFailed (event_id : String) (item_id : String) (error : Option ServerError)
  | ResponseCreated (event_id : String) (response : Response)
  | ResponseDone (event_id : String) (response : Response)
  | ResponseOutputItemAdded (event_id : String) (response_id : String) (output_index : Nat)
      (item : Item)
  | ResponseOutputItemDone (event_id : String) (response_id : String) (output_index : Nat)
      (item : Item)
  | ResponseContentPartAdded (event_id : String) (response_id : String) (item_id : String)
      (output_index : Nat) (content_index : Nat) (part : ContentPart)
  | ResponseContentPartDone (event_id : String) (response_id : String) (item_id : String)
      (output_index : Nat) (content_index : Nat) (part : ContentPart)
  | ResponseOutputTextDelta (event_id : String) (response_id : String) (item_id : String)
      (output_index : Nat) (content_index : Nat) (delta : String)
  | ResponseOutputTextDone (event_id : String) (response_id : String) (item_id : String)
      (output_index : Nat) (content_index : Nat) (text : String)
  | ResponseOutputAudioDelta (event_id : String) (response_id : String) (item_id : String)
      (output_index : Nat) (content_index : Nat) (delta : String)
  | ResponseOutputAudioDone (event_id : String) (response_id : String) (item_id : String)
      (output_index : Nat) (content_index : Nat) (item : Option Item)
  | ResponseOutputAudioTranscriptDelta (event_id : String) (response_id : String)
      (item_id : String) (output_index : Nat) (content_index : Nat) (delta : String)
  | ResponseOutputAudioTranscriptDone (event_id : String) (response_id : String)
      (item_id : String) (output_index : Nat) (content_index : Nat) (transcript : String)
  | ResponseFunctionCallArgumentsDelta (event_id : String) (response_id : String)
      (item_id : String) (output_index : Nat) (call_id : String) (delta : String)
  | ResponseFunctionCallArgumentsDone (event_id : String) (response_id : String)
      (item_id : String) (output_index : Nat) (call_id : String) (name : String)
      (arguments : String)
  | ResponseMcpCallArgumentsDelta (event_id : String) (response_id : String) (item_id : String)
      (output_index : Nat) (delta : String) (obfuscation : Option Json)
  | ResponseMcpCallArgumentsDone (event_id : String) (response_id : String) (item_id : String)
      (output_index : Nat) (arguments : String)
  | ResponseMcpCallInProgress (event_id : String) (item_id : String) (output_index : Nat)
  | ResponseMcpCallCompleted (event_id : String) (item_id : String) (output_index : Nat)
  | ResponseMcpCallFailed (event_id : String) (item_id : String) (output_index : Nat)
  | RateLimitsUpdated (event_id : String) (rate_limits : List RateLimit)
  | Unknown (value : Json)

/-- `server_events.rs::ServerEventRepr` (lines 264-564): the strict,
schema-validated representation, identical to `ServerEvent` minus the
`Unknown` passthrough. -/
inductive ServerEventRepr where
  | Error (event_id : String) (error : ServerError)
  | SessionCreated (event_id : String) (session : SessionPayload)
  | SessionUpdated (event_id : String) (session : SessionPayload)
  | ConversationItemAdded (event_id : String) (previous_item_id : Option String) (item : Item)
  | ConversationItemDone (event_id : String) (previous_item_id : Option String) (item : Item)
  | ConversationItemRetrieved (event_id : String) (item : Item)
  | ConversationItemDeleted (event_id : String) (item_id : String)
  | ConversationItemTruncated (event_id : String) (item_id : String)
      (content_index : Nat) (audio_end_ms : Nat)
  | InputAudioBufferCommitted (event_id : String) (previous_item_id : Option String)
      (item_id : String)
  | InputAudioBufferCleared (event_id : String)
  | InputAudioBufferSpeechStarted (event_id : String) (audio_start_ms : Nat) (item_id : String)
  | InputAudioBufferSpeechStopped (event_id : String) (audio_end_ms : Nat) (item_id : String)
  | InputAudioBufferTimeoutTriggered (event_id : String) (item_id : String)
      (audio_start_ms : Nat) (audio_end_ms : Nat)
  | DtmfEventReceived (event : String) (received_at : Nat)
  | OutputAudioBufferStarted (event_id : String) (response_id : String)
  | OutputAudioBufferStopped (event_id : String) (response_id : String)
  | OutputAudioBufferCleared (event_id : String) (response_id : String)
  | InputAudioTranscriptionDelta (event_id : String) (item_id : String) (content_index : Nat)
      (delta : String) (obfuscation : Option Json) (logprobs : Option Json)
  | InputAudioTranscriptionSegment (event_id : String) (item_id : String) (content_index : Nat)
      (text : String) (id : Option String) (speaker : Option String)
      (startAt : Option Json) (endAt : Option Json)
  | InputAudioTranscriptionFailed (event_id : String) (item_id : String) (content_index : Nat)
      (error : ServerError)
  | InputAudioTranscriptionCompleted (event_id : String) (item_id : String)
      (content_index : Nat) (transcript : String) (usage : Option Usage)
  | McpListToolsInProgress (event_id : String) (item_id : String)
  | McpListToolsCompleted (event_id : String) (item_id : String)
  | McpListToolsFailed (event_id : String) (item_id : String) (error : Option ServerError)
  | ResponseCreated (event_id : String) (response : Response)
  | ResponseDone (event_id : String) (response : Response)
  | ResponseOutputItemAdded (event_id : String) (response_id : String) (output_index : Nat)
      (item : Item)
  | ResponseOutputItemDone (event_id : String) (response_id : String) (output_index : Nat)
      (item : Item)
  | ResponseContentPartAdded (event_id : String) (response_id : String) (item_id : String)
      (output_index : Nat) (content_index : Nat) (part : ContentPart)
  | ResponseContentPartDone (event_id : String) (response_id : String) (item_id : String)
      (output_index : Nat) (content_index : Nat) (part : ContentPart)
  | ResponseOutputTextDelta (event_id : String) (response_id : String) (item_id : String)
      (output_index : Nat) (content_index : Nat) (delta : String)
  | ResponseOutputTextDone (event_id : String) (response_id : String) (item_id : String)
      (output_index : Nat) (content_index : Nat) (text : String)
  | ResponseOutputAudioDelta (event_id : String) (response_id : String) (item_id : String)
      (output_index : Nat) (content_index : Nat) (delta : String)
  | ResponseOutputAudioDone (event_id : String) (response_id : String) (item_id : String)
      (output_index : Nat) (content_index : Nat) (item : Option Item)
  | ResponseOutputAudioTranscriptDelta (event_id : String) (response_id : String)
      (item_id : String) (output_index : Nat) (content_index : Nat) (delta : String)
  | ResponseOutputAudioTranscriptDone (event_id : String) (response_id : String)
      (item_id : String) (output_index : Nat) (content_index : Nat) (transcript : String)
  | ResponseFunctionCallArgumentsDelta (event_id : String) (response_id : String)
      (item_id : String) (output_index : Nat) (call_id : String) (delta : String)
  | ResponseFunctionCallArgumentsDone (event_id : String) (response_id : String)
      (item_id : String) (output_index : Nat) (call_id : String) (name : String)
      (arguments : String)
  | ResponseMcpCallArgumentsDelta (event_id : String) (response_id : String) (item_id : String)
      (output_index : Nat) (delta : String) (obfuscation : Option Json)
  | ResponseMcpCallArgumentsDone (event_id : String) (response_id : String) (item_id : String)
      (output_index : Nat) (arguments : String)
  | ResponseMcpCallInProgress (event_id : String) (item_id : String) (output_index : Nat)
  | ResponseMcpCallCompleted (event_id : String) (item_id : String) (output_index : Nat)
  | ResponseMcpCallFailed (event_id : String) (item_id : String) (output_index : Nat)
  | RateLimitsUpdated (event_id : String) (rate_limits : List RateLimit)

/-- `impl From<ServerEventRepr> for ServerEvent` (server_events.rs 566-615). -/
def ServerEvent.ofRepr : ServerEventRepr → ServerEvent
  | .Error a b => .Error a b
  | .SessionCreated a b => .SessionCreated a b
  | .SessionUpdated a b => .SessionUpdated a b
  | .ConversationItemAdded a b c => .ConversationItemAdded a b c
  | .ConversationItemDone a b c => .ConversationItemDone a b c
  | .ConversationItemRetrieved a b => .ConversationItemRetrieved a b
  | .ConversationItemDeleted a b => .ConversationItemDeleted a b
  | .ConversationItemTruncated a b c d => .ConversationItemTruncated a b c d
  | .InputAudioBufferCommitted a b c => .InputAudioBufferCommitted a b c
  | .InputAudioBufferCleared a => .InputAudioBufferCleared a
  | .InputAudioBufferSpeechStarted a b c => .InputAudioBufferSpeechStarted a b c
  | .InputAudioBufferSpeechStopped a b c => .InputAudioBufferSpeechStopped a b c
  | .InputAudioBufferTimeoutTriggered a b c d => .InputAudioBufferTimeoutTriggered a b c d
  | .DtmfEventReceived a b => .DtmfEventReceived a b
  | .OutputAudioBufferStarted a b => .OutputAudioBufferStarted a b
  | .OutputAudioBufferStopped a b => .OutputAudioBufferStopped a b
  | .OutputAudioBufferCleared a b => .OutputAudioBufferCleared a b
  | .InputAudioTranscriptionDelta a b c d e f => .InputAudioTranscriptionDelta a b c d e f
  | .InputAudioTranscriptionSegment a b c d e f g h =>
      .InputAudioTranscriptionSegment a b c d e f g h
  | .InputAudioTranscriptionFailed a b c d => .InputAudioTranscriptionFailed a b c d
  | .InputAudioTranscriptionCompleted a b c d e => .InputAudioTranscriptionCompleted a b c d e
  | .McpListToolsInProgress a b => .McpListToolsInProgress a b
  | .McpListToolsCompleted a b => .McpListToolsCompleted a b
  | .McpListToolsFailed a b c => .McpListToolsFailed a b c
  | .ResponseCreated a b => .ResponseCreated a b
  | .ResponseDone a b => .ResponseDone a b
  | .ResponseOutputItemAdded a b c d => .ResponseOutputItemAdded a b c d
  | .ResponseOutputItemDone a b c d => .ResponseOutputItemDone a b c d
  | .ResponseContentPartAdded a b c d e f => .ResponseContentPartAdded a b c d e f
  | .ResponseContentPartDone a b c d e f => .ResponseContentPartDone a b c d e f
  | .ResponseOutputTextDelta a b c d e f => .ResponseOutputTextDelta a b c d e f
  | .ResponseOutputTextDone a b c d e f => .ResponseOutputTextDone a b c d e f
  | .ResponseOutputAudioDelta a b c d e f => .ResponseOutputAudioDelta a b c d e f
  | .ResponseOutputAudioDone a b c d e f => .ResponseOutputAudioDone a b c d e f
  | .ResponseOutputAudioTranscriptDelta a b c d e f =>
      .ResponseOutputAudioTranscriptDelta a b c d e f
  | .ResponseOutputAudioTranscriptDone a b c d e f =>
      .ResponseOutputAudioTranscriptDone a b c d e f
  | .ResponseFunctionCallArgumentsDelta a b c d e f =>
      .ResponseFunctionCallArgumentsDelta a b c d e f
  | .ResponseFunctionCallArgumentsDone a b c d e f g =>
      .ResponseFunctionCallArgumentsDone a b c d e f g
  | .ResponseMcpCallArgumentsDelta a b c d e f => .ResponseMcpCallArgumentsDelta a b c d e f
  | .ResponseMcpCallArgumentsDone a b c d e => .ResponseMcpCallArgumentsDone a b c d e
  | .ResponseMcpCallInProgress a b c => .ResponseMcpCallInProgress a b c
  | .ResponseMcpCallCompleted a b c => .ResponseMcpCallCompleted a b c
  | .ResponseMcpCallFailed a b c => .ResponseMcpCallFailed a b c
  | .RateLimitsUpdated a b => .RateLimitsUpdated a b

/-- The inner match of `impl Serialize for ServerEvent` (server_events.rs
625-674): every variant except `Unknown` maps back to its strict
representation; `Unknown` has no representation (it is handled before the
match, and the `Unknown` arm inside it is unreachable). -/
def ServerEvent.toRepr : ServerEvent → Option ServerEventRepr
  | .Error a b => some (.Error a b)
  | .SessionCreated a b => some (.SessionCreated a b)
  | .SessionUpdated a b => some (.SessionUpdated a b)
  | .ConversationItemAdded a b c => some (.ConversationItemAdded a b c)
  | .ConversationItemDone a b c => some (.ConversationItemDone a b c)
  | .ConversationItemRetrieved a b => some (.ConversationItemRetrieved a b)
  | .ConversationItemDeleted a b => some (.ConversationItemDeleted a b)
  | .ConversationItemTruncated a b c d => some (.ConversationItemTruncated a b c d)
  | .InputAudioBufferCommitted a b c => some (.InputAudioBufferCommitted a b c)
  | .InputAudioBufferCleared a => some (.InputAudioBufferCleared a)
  | .InputAudioBufferSpeechStarted a b c => some (.InputAudioBufferSpeechStarted a b c)
  | .InputAudioBufferSpeechStopped a b c => some (.InputAudioBufferSpeechStopped a b c)
  | .InputAudioBufferTimeoutTriggered a b c d =>
      some (.InputAudioBufferTimeoutTriggered a b c d)
  | .DtmfEventReceived a b => some (.DtmfEventReceived a b)
  | .OutputAudioBufferStarted a b => some (.OutputAudioBufferStarted a b)
  | .OutputAudioBufferStopped a b => some (.OutputAudioBufferStopped a b)
  | .OutputAudioBufferCleared a b => some (.OutputAudioBufferCleared a b)
  | .InputAudioTranscriptionDelta a b c d e f =>
      some (.InputAudioTranscriptionDelta a b c d e f)
  | .InputAudioTranscriptionSegment a b c d e f g h =>
      some (.InputAudioTranscriptionSegment a b c d e f g h)
  | .InputAudioTranscriptionFailed a b c d => some (.InputAudioTranscriptionFailed a b c d)
  | .InputAudioTranscriptionCompleted a b c d e =>
      some (.InputAudioTranscriptionCompleted a b c d e)
  | .McpListToolsInProgress a b => some (.McpListToolsInProgress a b)
  | .McpListToolsCompleted a b => some (.McpListToolsCompleted a b)
  | .McpListToolsFailed a b c => some (.McpListToolsFailed a b c)
  | .ResponseCreated a b => some (.ResponseCreated a b)
  | .ResponseDone a b => some (.ResponseDone a b)
  | .ResponseOutputItemAdded a b c d => some (.ResponseOutputItemAdded a b c d)
  | .ResponseOutputItemDone a b c d => some (.ResponseOutputItemDone a b c d)
  | .ResponseContentPartAdded a b c d e f => some (.ResponseContentPartAdded a b c d e f)
  | .ResponseContentPartDone a b c d e f => some (.ResponseContentPartDone a b c d e f)
  | .ResponseOutputTextDelta a b c d e f => some (.ResponseOutputTextDelta a b c d e f)
  | .ResponseOutputTextDone a b c d e f => some (.ResponseOutputTextDone a b c d e f)
  | .ResponseOutputAudioDelta a b c d e f => some (.ResponseOutputAudioDelta a b c d e f)
  | .ResponseOutputAudioDone a b c d e f => some (.ResponseOutputAudioDone a b c d e f)
  | .ResponseOutputAudioTranscriptDelta a b c d e f =>
      some (.ResponseOutputAudioTranscriptDelta a b c d e f)
  | .ResponseOutputAudioTranscriptDone a b c d e f =>
      some (.ResponseOutputAudioTranscriptDone a b c d e f)
  | .ResponseFunctionCallArgumentsDelta a b c d e f =>
      some (.ResponseFunctionCallArgumentsDelta a b c d e f)
  | .ResponseFunctionCallArgumentsDone a b c d e f g =>
      some (.ResponseFunctionCallArgumentsDone a b c d e f g)
  | .ResponseMcpCallArgumentsDelta a b c d e f =>
      some (.ResponseMcpCallArgumentsDelta a b c d e f)
  | .ResponseMcpCallArgumentsDone a b c d e => some (.ResponseMcpCallArgumentsDone a b c d e)
  | .ResponseMcpCallInProgress a b c => some (.ResponseMcpCallInProgress a b c)
  | .ResponseMcpCallCompleted a b c => some (.ResponseMcpCallCompleted a b c)
  | .ResponseMcpCallFailed a b c => some (.ResponseMcpCallFailed a b c)
  | .RateLimitsUpdated a b => some (.RateLimitsUpdated a b)
  | .Unknown _ => none

section OpenCodec

/-! The serde-derived codec of the strict `ServerEventRepr` enum is generated
code; the hand-written open codec of `ServerEvent` is embedded over it as over
a parameter.  `reprFromJson` stands for `ServerEventRepr::deserialize`,
`reprToJson` for `ServerEventRepr::serialize`. -/

variable (reprFromJson : Json → Option ServerEventRepr)
variable (reprToJson : ServerEventRepr → Json)

/-- `impl Deserialize for ServerEvent` (server_events.rs 680-694): buffer the
raw JSON value, attempt the strict decode, and on any failure keep the raw
value in the `Unknown` variant instead of erroring. -/
def serverEventDeserialize (value : Json) : ServerEvent :=
  match reprFromJson value with
  | some repr => ServerEvent.ofRepr repr
  | none => ServerEvent.Unknown value

/-- `impl Serialize for ServerEvent` (server_events.rs 617-678): an `Unknown`
value re-emits exactly the JSON it was constructed from; every other variant
serializes through its strict representation.  The `Json.null` arm corresponds
to the `unreachable!` in the source and is never taken. -/
def serverEventSerialize (e : ServerEvent) : Json :=
  match e with
  | ServerEvent.Unknown value => value
  | e =>
      match ServerEvent.toRepr e with
      | some repr => reprToJson repr
      | none => Json.null

end OpenCodec

/-! ## Event classifier (sdk/events.rs) -/

/-- `sdk/events.rs::SdkEvent`: the coarse consumer-facing event taxonomy. -/
inductive SdkEvent where
  | TextDelta (response_id : String) (item_id : String) (output_index : Nat)
      (content_index : Nat) (delta : String)
  | TextDone (response_id : String) (item_id : String) (output_index : Nat)
      (content_index : Nat) (text : String)
  | AudioDelta (response_id : String) (item_id : String) (output_index : Nat)
      (content_index : Nat) (delta : String)
  | AudioDone (response_id : String) (item_id : String) (output_index : Nat)
      (content_index : Nat) (item : Option Item)
  | TranscriptDelta (response_id : String) (item_id : String) (output_index : Nat)
      (content_index : Nat) (delta : String)
  | TranscriptDone (response_id : String) (item_id : String) (output_index : Nat)
      (content_index : Nat) (transcript : String)
  | ContentPartAdded (response_id : String) (item_id : String) (output_index : Nat)
      (content_index : Nat) (part : ContentPart)
  | ContentPartDone (response_id : String) (item_id : String) (output_index : Nat)
      (content_index : Nat) (part : ContentPart)
  | ToolCall (response_id : String) (item_id : String) (output_index : Nat)
      (call_id : String) (name : String) (arguments : String)
  | ToolCallDelta (response_id : String) (item_id : String) (output_index : Nat)
      (call_id : String) (delta : String)
  | InputTranscriptionDelta (item_id : String) (content_index : Nat) (delta : String)
  | InputTranscriptionCompleted (item_id : String) (content_index : Nat)
      (transcript : String) (usage : Option Usage)
  | Error (event_id : String) (error : ServerError)
  | Raw (event : ServerEvent)

/-- `map_response_text` (events.rs 144-176). -/
def mapResponseText : ServerEvent → Option SdkEvent
  | .ResponseOutputTextDelta _ response_id item_id output_index content_index delta =>
      some (.TextDelta response_id item_id output_index content_index delta)
  | .ResponseOutputTextDone _ response_id item_id output_index content_index text =>
      some (.TextDone response_id item_id output_index content_index text)
  | _ => none

/-- `map_response_audio` (events.rs 178-238). -/
def mapResponseAudio : ServerEvent → Option SdkEvent
  | .ResponseOutputAudioDelta _ response_id item_id output_index content_index delta =>
      some (.AudioDelta response_id item_id output_index content_index delta)
  | .ResponseOutputAudioDone _ response_id item_id output_index content_index item =>
      some (.AudioDone response_id item_id output_index content_index item)
  | .ResponseOutputAudioTranscriptDelta _ response_id item_id output_index content_index
      delta =>
      some (.TranscriptDelta response_id item_id output_index content_index delta)
  | .ResponseOutputAudioTranscriptDone _ response_id item_id output_index content_index
      transcript =>
      some (.TranscriptDone response_id item_id output_index content_index transcript)
  | _ => none

/-- `map_response_content` (events.rs 240-272). -/
def mapResponseContent : ServerEvent → Option SdkEvent
  | .ResponseContentPartAdded _ response_id item_id output_index content_index part =>
      some (.ContentPartAdded response_id item_id output_index content_index part)
  | .ResponseContentPartDone _ response_id item_id output_index content_index part =>
      some (.ContentPartDone response_id item_id output_index content_index part)
  | _ => none

/-- `map_response_tool` (events.rs 274-308). -/
def mapResponseTool : ServerEvent → Option SdkEvent
  | .ResponseFunctionCallArgumentsDelta _ response_id item_id output_index call_id delta =>
      some (.ToolCallDelta response_id item_id output_index call_id delta)
  | .ResponseFunctionCallArgumentsDone _ response_id item_id output_index call_id name
      arguments =>
      some (.ToolCall response_id item_id output_index call_id name arguments)
  | _ => none

/-- `map_response_ref` (events.rs 137-142). -/
def mapResponseRef (event : ServerEvent) : Option SdkEvent :=
  match mapResponseText event with
  | some m => some m
  | none =>
      match mapResponseAudio event with
      | some m => some m
      | none =>
          match mapResponseContent event with
          | some m => some m
          | none => mapResponseTool event

/-- `map_transcription_ref` (events.rs 310-336). -/
def mapTranscriptionRef : ServerEvent → Option SdkEvent
  | .InputAudioTranscriptionDelta _ item_id content_index delta _ _ =>
      some (.InputTranscriptionDelta item_id content_index delta)
  | .InputAudioTranscriptionCompleted _ item_id content_index transcript usage =>
      some (.InputTranscriptionCompleted item_id content_index transcript usage)
  | _ => none

/-- `map_error_ref` (events.rs 338-345). -/
def mapErrorRef : ServerEvent → Option SdkEvent
  | .Error event_id error => some (.Error event_id error)
  | _ => none

/-- `SdkEvent::from_server` (events.rs 120-135): strict family mappings first,
then the `Raw` passthrough. -/
def SdkEvent.fromServer (event : ServerEvent) : Option SdkEvent :=
  match mapResponseRef event with
  | some mapped => some mapped
  | none =>
      match mapTranscriptionRef event with
      | some mapped => some mapped
      | none =>
          match mapErrorRef event with
          | some mapped => some mapped
          | none => some (SdkEvent.Raw event)

/-! ## Voice channel payloads (sdk/voice.rs) -/

/-- `sdk/voice.rs::VoiceEvent` (payloads delivered on the lifecycle/voice
channel). -/
inductive VoiceEvent where
  | SpeechStarted (audio_start_ms : Option Nat)
  | SpeechStopped (audio_end_ms : Option Nat)
  | AudioDelta (response_id : String) (item_id : String) (output_index : Nat)
      (content_index : Nat) (pcm : List Nat)
  | AudioDone (response_id : String) (item_id : String) (output_index : Nat)
      (content_index : Nat)
  | TranscriptDelta (response_id : String) (item_id : String) (output_index : Nat)
      (content_index : Nat) (delta : String)
  | TranscriptDone (response_id : String) (item_id : String) (output_index : Nat)
      (content_index : Nat) (transcript : String)
  | UserTranscriptDone (item_id : String) (content_index : Nat) (transcript : String)
  | ResponseCreated (response_id : String)
  | ResponseDone (response_id : String)
  | ResponseCancelled (response_id : String)
  | DecodeError (message : String)

/-- `sdk/voice.rs::AudioChunk`: a decoded audio chunk. -/
structure AudioChunk where
  response_id : String
  item_id : String
  output_index : Nat
  content_index : Nat
  pcm : List Nat

/-- `sdk/voice.rs::TranscriptChunk`. -/
structure TranscriptChunk where
  response_id : String
  item_id : String
  output_index : Nat
  content_index : Nat
  text : String
  is_final : Bool

/-! ## Tool registry (sdk/tools.rs)

The typed-to-erased adaptation (`tool_with_description`, tools.rs 106-139)
happens in Rust through a generic wrapper: the caller's `Fn(TArgs) -> Fut`
is wrapped once into a `Box<dyn Fn(Value) -> BoxFuture<Result<Value>>>` and the
JSON Schema is derived from `TArgs`.  The embedding takes registration at the
erased boundary: `handler` stands for the wrapped closure and `schema` for the
serialized derived schema, which is exactly the data the registry stores. -/

/-- The erased handler type (`ToolHandler`, tools.rs 15), with the future
collapsed to its result. -/
def ToolHandlerFn := Json → Except Error Json

/-- `tools.rs::ToolDefinition`; the `RootSchema` is carried as its JSON value. -/
structure ToolDefinition where
  name : String
  description : Option String
  schema : Json

/-- `tools.rs::ToolCall`. -/
structure ToolCall where
  name : String
  call_id : String
  arguments : Json
  response_id : Option String
  item_id : Option String
  output_index : Option Nat

/-- `tools.rs::ToolResult`. -/
structure ToolResult where
  call_id : String
  output : Json

/-- `HashMap::insert` on the handler map, modeled on an association list:
overwrite the binding if the key is present, otherwise add it. -/
def insertHandler : List (String × ToolHandlerFn) → String → ToolHandlerFn →
    List (String × ToolHandlerFn)
  | [], key, h => [(key, h)]
  | (k, h0) :: rest, key, h =>
      if k = key then (key, h) :: rest else (k, h0) :: insertHandler rest key h

/-- `HashMap::get` on the handler map. -/
def lookupHandler : List (String × ToolHandlerFn) → String → Option ToolHandlerFn
  | [], _ => none
  | (k, h) :: rest, key => if k = key then some h else lookupHandler rest key

/-- `tools.rs::ToolRegistry`: descriptor list, erased handler map, and remote
MCP descriptors. -/
structure ToolRegistry where
  defs : List ToolDefinition
  handlers : List (String × ToolHandlerFn)
  mcp : List McpToolConfig

/-- `ToolRegistry::new` / `Default`. -/
def ToolRegistry.new : ToolRegistry := ⟨[], [], []⟩

/-- `ToolRegistry::tool_with_description` (tools.rs 106-139): push the
descriptor onto `defs` unconditionally, and insert the erased handler into the
map (overwriting any existing handler of the same name). -/
def ToolRegistry.toolWithDescription (r : ToolRegistry) (name : String)
    (description : String) (schema : Json) (handler : ToolHandlerFn) : ToolRegistry :=
  { r with
    defs := r.defs ++ [⟨name, some description, schema⟩]
    handlers := insertHandler r.handlers name handler }

/-- `ToolRegistry::tool` (tools.rs 82-90): registration with an empty
description. -/
def ToolRegistry.tool (r : ToolRegistry) (name : String) (schema : Json)
    (handler : ToolHandlerFn) : ToolRegistry :=
  r.toolWithDescription name "" schema handler

/-- `ToolDefinition::try_as_tool` (tools.rs 31-41).  Serializing the schema is
the identity here because the schema is already carried as JSON, so the
serialization failure arm is unreachable in the model. -/
def ToolDefinition.tryAsTool (d : ToolDefinition) : Except Error Tool :=
  Except.ok (Tool.Function d.name d.description d.schema)

/-- `ToolRegistry::try_as_tools` (tools.rs 183-192): all local descriptors in
registration order, then the remote MCP descriptors. -/
def ToolRegistry.tryAsTools (r : ToolRegistry) : Except Error (List Tool) := do
  let tools ← r.defs.mapM ToolDefinition.tryAsTool
  pure (tools ++ r.mcp.map Tool.Mcp)

/-- `ToolRegistry::dispatch` (tools.rs 196-206): look the handler up by name
(unknown name is an error), run it, and wrap the output with the call's id. -/
def ToolRegistry.dispatch (r : ToolRegistry) (call : ToolCall) : Except Error ToolResult :=
  match lookupHandler r.handlers call.name with
  | none => Except.error (Error.invalidClientEvent ("unknown tool: " ++ call.name))
  | some handler =>
      match handler call.arguments with
      | Except.error e => Except.error e
      | Except.ok output => Except.ok ⟨call.call_id, output⟩

/-! ## Session actor (sdk/session.rs)

The actor task is modeled as a state-transition function: one inbound
notification is processed at a time (the actor's select loop guarantees
serialization), and each per-channel `send` is modeled as appending to that
channel's output list.  The fire-and-forget `on_text`/`on_raw_event` callbacks
receive copies of values already delivered on channels and influence neither
the state nor any output; they are not modeled.  `on_tool_call` replaces the
registry dispatch and is modeled. -/

/-- `sdk/handlers.rs::EventHandlers`, restricted to the handler that affects the
modeled behavior. -/
structure EventHandlers where
  on_tool_call : Option (ToolCall → Except Error ToolResult)

/-- The actor's configuration: the fields of `EventContext` that are fixed for
the session (session.rs 491-503), plus the model of `serde_json::from_str`
used to parse tool arguments (session.rs 534-535). -/
structure ActorConfig where
  handlers : EventHandlers
  tools : ToolRegistry
  auto_barge_in : Bool
  auto_tool_response : Bool
  parseJsonStr : String → Option Json

/-- Key of a streaming text buffer: `(item_id, content_index)`. -/
abbrev BufferKey := String × Nat

/-- The actor's mutable state: the `active_response_id` cell and the
per-(item id, content index) text buffers (`HashMap<(String, u32), String>`,
modeled as a partial map). -/
structure SessionState where
  active_response_id : Option String
  buffers : BufferKey → Option String

/-- `buffers.entry(key).or_default().push_str(&delta)` (session.rs 520-524). -/
def buffersAppend (b : BufferKey → Option String) (key : BufferKey) (delta : String) :
    BufferKey → Option String :=
  fun k => if k = key then some ((b key).getD "" ++ delta) else b k

/-- `buffers.remove(&key)` (session.rs 527). -/
def buffersRemove (b : BufferKey → Option String) (key : BufferKey) :
    BufferKey → Option String :=
  fun k => if k = key then none else b k

/-- One notification's fan-out: everything the actor wrote while processing it,
per destination, in per-channel order. -/
structure Outputs where
  sent : List ClientEvent
  events : List SdkEvent
  texts : List String
  voice : List VoiceEvent
  audio : List AudioChunk
  transcripts : List TranscriptChunk

/-- No output. -/
def Outputs.empty : Outputs := ⟨[], [], [], [], [], []⟩

/-- Channel-wise concatenation of outputs of consecutive processing steps. -/
def Outputs.append (a b : Outputs) : Outputs :=
  ⟨a.sent ++ b.sent, a.events ++ b.events, a.texts ++ b.texts, a.voice ++ b.voice,
   a.audio ++ b.audio, a.transcripts ++ b.transcripts⟩

/-- `should_accept_response` (session.rs 740-743):
`guard.as_deref().map_or(true, |active_id| active_id == response_id)`. -/
def shouldAcceptResponse (active : Option String) (response_id : String) : Bool :=
  match active with
  | none => true
  | some active_id => active_id == response_id

/-- `handle_response_lifecycle` (session.rs 602-624): record/clear the active
response id and emit the paired lifecycle event. -/
def handleResponseLifecycle (st : SessionState) :
    ServerEvent → SessionState × List VoiceEvent
  | .ResponseCreated _ response =>
      ({ st with active_response_id := some response.id },
       [VoiceEvent.ResponseCreated response.id])
  | .ResponseDone _ response =>
      ({ st with active_response_id := none }, [VoiceEvent.ResponseDone response.id])
  | _ => (st, [])

/-- `send_barge_in` (session.rs 745-757): take (and thereby clear) the active
response id, send an output-audio-buffer clear, then a cancel for the taken id
if there was one. -/
def sendBargeIn (st : SessionState) : SessionState × List ClientEvent :=
  let response_id := st.active_response_id
  let st := { st with active_response_id := none }
  (st,
   ClientEvent.OutputAudioBufferClear none ::
     match response_id with
     | some id => [ClientEvent.ResponseCancel none (some id)]
     | none => [])

/-- `handle_speech_events` (session.rs 626-647): emit the speech boundary
event; on speech-started with auto-barge-in enabled, run the barge-in. -/
def handleSpeechEvents (cfg : ActorConfig) (st : SessionState) :
    ServerEvent → SessionState × List VoiceEvent × List ClientEvent
  | .InputAudioBufferSpeechStarted _ audio_start_ms _ =>
      let voice := [VoiceEvent.SpeechStarted (some audio_start_ms)]
      if cfg.auto_barge_in then
        let (st, sent) := sendBargeIn st
        (st, voice, sent)
      else (st, voice, [])
  | .InputAudioBufferSpeechStopped _ audio_end_ms _ =>
      (st, [VoiceEvent.SpeechStopped (some audio_end_ms)], [])
  | _ => (st, [], [])

/-- The fixed message standing for the `base64` crate's decode-error display
(`err.to_string()`, session.rs 673-675); its text is opaque to the actor. -/
def base64DecodeErrorMessage : String := "invalid base64"

/-- `handle_audio_events` (session.rs 649-692): gate on the active response id;
decode the delta payload, delivering the chunk on the voice and audio channels
on success and a decode-error voice event on failure. -/
def handleAudioEvents (st : SessionState) :
    ServerEvent → List VoiceEvent × List AudioChunk
  | .ResponseOutputAudioDelta _ response_id item_id output_index content_index delta =>
      if shouldAcceptResponse st.active_response_id response_id then
        match b64Decode delta with
        | some pcm =>
            ([VoiceEvent.AudioDelta response_id item_id output_index content_index pcm],
             [⟨response_id, item_id, output_index, content_index, pcm⟩])
        | none => ([VoiceEvent.DecodeError base64DecodeErrorMessage], [])
      else ([], [])
  | .ResponseOutputAudioDone _ response_id item_id output_index content_index _ =>
      if shouldAcceptResponse st.active_response_id response_id then
        ([VoiceEvent.AudioDone response_id item_id output_index content_index], [])
      else ([], [])
  | _ => ([], [])

/-- `handle_transcript_events` (session.rs 694-738): same gating as audio;
deliver on the voice channel and republish on the transcript channel tagged
with finality. -/
def handleTranscriptEvents (st : SessionState) :
    ServerEvent → List VoiceEvent × List TranscriptChunk
  | .ResponseOutputAudioTranscriptDelta _ response_id item_id output_index content_index
      delta =>
      if shouldAcceptResponse st.active_response_id response_id then
        ([VoiceEvent.TranscriptDelta response_id item_id output_index content_index delta],
         [⟨response_id, item_id, output_index, content_index, delta, false⟩])
      else ([], [])
  | .ResponseOutputAudioTranscriptDone _ response_id item_id output_index content_index
      transcript =>
      if shouldAcceptResponse st.active_response_id response_id then
        ([VoiceEvent.TranscriptDone response_id item_id output_index content_index
            transcript],
         [⟨response_id, item_id, output_index, content_index, transcript, true⟩])
      else ([], [])
  | _ => ([], [])

/-- The tool-completion step of `handle_server_event` (session.rs 533-586):
parse the arguments string (falling back to a JSON string on parse failure),
build the `ToolCall`, run the caller-supplied handler or the registry
dispatch, and send the function-call-output item — followed by a
response-create when auto-follow-up is enabled — or the error-object item on
failure. -/
def handleToolCompletion (cfg : ActorConfig) (response_id item_id : String)
    (output_index : Nat) (call_id name arguments : String) : List ClientEvent :=
  let args := (cfg.parseJsonStr arguments).getD (Json.str arguments)
  let call : ToolCall :=
    ⟨name, call_id, args, some response_id, some item_id, some output_index⟩
  let result :=
    match cfg.handlers.on_tool_call with
    | some handler => handler call
    | none => cfg.tools.dispatch call
  match result with
  | Except.ok tool_result =>
      let output := Json.render tool_result.output
      ClientEvent.ConversationItemCreate none none
          (Item.FunctionCallOutput none tool_result.call_id output) ::
        (if cfg.auto_tool_response then [ClientEvent.ResponseCreate none none] else [])
  | Except.error err =>
      let output := Json.render (Json.obj [("error", Json.str err.toMessage)])
      [ClientEvent.ConversationItemCreate none none
          (Item.FunctionCallOutput none call_id output)]

/-- `handle_server_event` (session.rs 505-589) as one state transition: voice
handling (lifecycle, speech/barge-in, audio, transcript, in that order and
threading the state), then the unconditional classified fan-out, then the
trailing match (text buffering, text completion, tool completion).  The
function is total: no inbound notification aborts the actor. -/
def handleServerEvent (cfg : ActorConfig) (st : SessionState) (evt : ServerEvent) :
    SessionState × Outputs :=
  let (st1, voiceLifecycle) := handleResponseLifecycle st evt
  let (st2, voiceSpeech, sentSpeech) := handleSpeechEvents cfg st1 evt
  let (voiceAudio, audioChunks) := handleAudioEvents st2 evt
  let (voiceTranscript, transcriptChunks) := handleTranscriptEvents st2 evt
  let voice := voiceLifecycle ++ voiceSpeech ++ voiceAudio ++ voiceTranscript
  let events :=
    match SdkEvent.fromServer evt with
    | some mapped => [mapped]
    | none => []
  match evt with
  | .ResponseOutputTextDelta _ _ item_id _ content_index delta =>
      ({ st2 with buffers := buffersAppend st2.buffers (item_id, content_index) delta },
       ⟨sentSpeech, events, [], voice, audioChunks, transcriptChunks⟩)
  | .ResponseOutputTextDone _ _ item_id _ content_index text =>
      ({ st2 with buffers := buffersRemove st2.buffers (item_id, content_index) },
       ⟨sentSpeech, events, [text], voice, audioChunks, transcriptChunks⟩)
  | .ResponseFunctionCallArgumentsDone _ response_id item_id output_index call_id name
      arguments =>
      let sentTool :=
        handleToolCompletion cfg response_id item_id output_index call_id name arguments
      (st2, ⟨sentSpeech ++ sentTool, events, [], voice, audioChunks, transcriptChunks⟩)
  | _ => (st2, ⟨sentSpeech, events, [], voice, audioChunks, transcriptChunks⟩)

/-- Processing of a finite inbound sequence, one notification at a time in
arrival order (the actor's loop, session.rs 387-427), accumulating every
channel's output. -/
def runEvents (cfg : ActorConfig) : SessionState → List ServerEvent →
    SessionState × Outputs
  | st, [] => (st, Outputs.empty)
  | st, evt :: rest =>
      let (st1, out1) := handleServerEvent cfg st evt
      let (st2, out2) := runEvents cfg st1 rest
      (st2, out1.append out2)

/-! ## Outbound validation and send (lib.rs) -/

section ClientSend

/-! `validate_session_update` and `validate_response_config` (lib.rs 171-198)
only inspect the opaque session/response payloads (audio formats, MCP tool
configurations); no claim exercises them, so they are parameters of the
embedding. -/

variable (validateSessionUpdate : SessionUpdatePayload → Except Error Unit)
variable (validateResponseConfig : ResponseConfigPayload → Except Error Unit)

/-- `validate_client_event` (lib.rs 150-169): an input-audio append is checked
by the analytic base64 length estimate against the 15 MiB bound; session
updates and response configurations are validated by their payload validators;
everything else passes. -/
def validateClientEvent (event : ClientEvent) : Except Error Unit :=
  match event with
  | .InputAudioBufferAppend _ audio =>
      match estimateBase64DecodedLen audio with
      | Except.error msg => Except.error (Error.invalidClientEvent msg)
      | Except.ok size =>
          if size > MAX_INPUT_AUDIO_CHUNK_BYTES then
            Except.error (Error.invalidClientEvent
              ("input_audio_buffer.append exceeds 15MB (" ++ toString size ++ " bytes)"))
          else Except.ok ()
  | .SessionUpdate _ session => validateSessionUpdate session
  | .ResponseCreate _ (some config) => validateResponseConfig config
  | _ => Except.ok ()

/-- `RealtimeClient::send` (lib.rs 63-69): validate, then serialize and hand
exactly one frame to the connection.  The returned list is the sequence of
frames written to the underlying stream for this call; `encodeClientEvent`
stands for `serde_json::to_string`, which is total on the modeled commands. -/
def realtimeClientSend (encodeClientEvent : ClientEvent → String)
    (event : ClientEvent) : Except Error Unit × List String :=
  match validateClientEvent validateSessionUpdate validateResponseConfig event with
  | Except.error e => (Except.error e, [])
  | Except.ok () => (Except.ok (), [encodeClientEvent event])

end ClientSend

/-! ## Derived definitions used by the statements -/

/-- Specification-side classifier, following §4.4 of the spec word for word:
"text delta/done, audio delta/done, transcript delta/done, content-part
added/done, tool-call/tool-call-delta, input-transcription delta/completed,
top-level error, and a Raw passthrough for anything else (including Unknown
notifications)".  It is total by construction and is compared against the
implementation's `SdkEvent::from_server`. -/
def specClassify : ServerEvent → SdkEvent
  | .ResponseOutputTextDelta _ rid iid oi ci dl => .TextDelta rid iid oi ci dl
  | .ResponseOutputTextDone _ rid iid oi ci t => .TextDone rid iid oi ci t
  | .ResponseOutputAudioDelta _ rid iid oi ci dl => .AudioDelta rid iid oi ci dl
  | .ResponseOutputAudioDone _ rid iid oi ci itm => .AudioDone rid iid oi ci itm
  | .ResponseOutputAudioTranscriptDelta _ rid iid oi ci dl =>
      .TranscriptDelta rid iid oi ci dl
  | .ResponseOutputAudioTranscriptDone _ rid iid oi ci tr =>
      .TranscriptDone rid iid oi ci tr
  | .ResponseContentPartAdded _ rid iid oi ci part => .ContentPartAdded rid iid oi ci part
  | .ResponseContentPartDone _ rid iid oi ci part => .ContentPartDone rid iid oi ci part
  | .ResponseFunctionCallArgumentsDelta _ rid iid oi cid dl =>
      .ToolCallDelta rid iid oi cid dl
  | .ResponseFunctionCallArgumentsDone _ rid iid oi cid name args =>
      .ToolCall rid iid oi cid name args
  | .InputAudioTranscriptionDelta _ iid ci dl _ _ => .InputTranscriptionDelta iid ci dl
  | .InputAudioTranscriptionCompleted _ iid ci tr usage =>
      .InputTranscriptionCompleted iid ci tr usage
  | .Error eid err => .Error eid err
  | e => .Raw e

/-- Recognizer for a `response.create` command in an outbound trace. -/
def isResponseCreateEvent : ClientEvent → Bool
  | .ResponseCreate _ _ => true
  | _ => false

/-- Recognizer for a conversation-item-create command carrying a
function-call-output item. -/
def isFunctionCallOutputCreate : ClientEvent → Bool
  | .ConversationItemCreate _ _ (.FunctionCallOutput _ _ _) => true
  | _ => false

/-- The call ids of the function-call-output items in an outbound trace, in
order. -/
def fnOutputCallIds : List ClientEvent → List String :=
  List.filterMap fun e =>
    match e with
    | .ConversationItemCreate _ _ (.FunctionCallOutput _ call_id _) => some call_id
    | _ => none

/-- A concrete actor configuration used by the concrete evaluations below:
no caller-supplied tool handler, empty registry, auto-barge-in and
auto-follow-up enabled, and an argument parser that always falls back to the
raw string. -/
def witnessConfig : ActorConfig :=
  ⟨⟨none⟩, ToolRegistry.new, true, true, fun _ => none⟩

/-- A session state with no active response and no buffers. -/
def initialState : SessionState := ⟨none, fun _ => none⟩

/-! ## Theorems -/

/-- C8: The event classifier is a total pure function on inbound notifications:
for every notification (including `Unknown`) `SdkEvent::from_server` produces
exactly one consumer event, and it agrees everywhere with the specification's
classification table (`specClassify`): the text, audio, transcript,
content-part, tool-call, input-transcription and error families map to their
dedicated events, and every other variant maps to `Raw` carrying the
unmodified notification. -/
theorem fromServer_total_eq_specClassify (e : ServerEvent) :
    SdkEvent.fromServer e = some (specClassify e) := by
  cases e <;> rfl

/-- C2: decoding an inbound notification from JSON is total — any value the
strict representation rejects becomes `Unknown` carrying the original JSON —
and serializing an `Unknown` value re-emits exactly the JSON it was
constructed from, so decode followed by encode is the identity on
Unknown-classified notifications.  The statement holds for every strict codec
(`reprFromJson`/`reprToJson` stand for the serde-derived
`ServerEventRepr` codec, which is generated code). -/
theorem serverEvent_decode_total_unknown_roundtrip
    (reprFromJson : Json → Option ServerEventRepr)
    (reprToJson : ServerEventRepr → Json) (v : Json) :
    ((∃ repr, reprFromJson v = some repr ∧
        serverEventDeserialize reprFromJson v = ServerEvent.ofRepr repr) ∨
      (serverEventDeserialize reprFromJson v = ServerEvent.Unknown v ∧
        serverEventSerialize reprToJson (serverEventDeserialize reprFromJson v) = v)) ∧
    (∀ w : Json, serverEventSerialize reprToJson (ServerEvent.Unknown w) = w) := by
  constructor
  · cases h : reprFromJson v with
    | some repr =>
        refine Or.inl ⟨repr, ?_, ?_⟩ <;> simp [serverEventDeserialize, h]
    | none =>
        refine Or.inr ⟨by simp [serverEventDeserialize, h], ?_⟩
        simp [serverEventDeserialize, h, serverEventSerialize]
  · intro w
    rfl

/-- C4: when auto-barge-in is enabled and a speech-started notification
arrives while the active response id is `R`, the actor sends exactly an
output-audio-clear command followed by a cancel command for `R` — in that
order, so the cancel is never emitted before the clear — and the active
response id is `none` after the step. -/
theorem speechStarted_barge_in_clear_then_cancel (cfg : ActorConfig)
    (st : SessionState) (eid : String) (ms : Nat) (iid R : String)
    (hauto : cfg.auto_barge_in = true) (hact : st.active_response_id = some R) :
    (handleServerEvent cfg st
        (ServerEvent.InputAudioBufferSpeechStarted eid ms iid)).2.sent =
      [ClientEvent.OutputAudioBufferClear none,
        ClientEvent.ResponseCancel none (some R)] ∧
    (handleServerEvent cfg st
        (ServerEvent.InputAudioBufferSpeechStarted eid ms iid)).1.active_response_id =
      none := by
  constructor <;>
    simp [handleServerEvent, handleResponseLifecycle, handleSpeechEvents, sendBargeIn,
      handleAudioEvents, handleTranscriptEvents, hauto, hact]

/-- Witness for C4 at a concrete configuration and state. -/
theorem speechStarted_barge_in_clear_then_cancel_witness :
    (handleServerEvent witnessConfig ⟨some "resp_1", fun _ => none⟩
        (ServerEvent.InputAudioBufferSpeechStarted "evt_2" 0 "item_1")).2.sent =
      [ClientEvent.OutputAudioBufferClear none,
        ClientEvent.ResponseCancel none (some "resp_1")] :=
  (speechStarted_barge_in_clear_then_cancel witnessConfig
    ⟨some "resp_1", fun _ => none⟩ "evt_2" 0 "item_1" "resp_1" rfl rfl).1

/-- C10: when an audio-delta notification passes the active-response-id gate
but its payload is not decodable base64, the actor emits a decode-error event
on the voice channel, delivers nothing on the decoded-audio channel, still
delivers the classified event on the generic stream, and leaves the state
unchanged (the step is a total function: the actor does not terminate). -/
theorem gated_audio_decode_failure (cfg : ActorConfig) (st : SessionState)
    (eid rid iid : String) (oi ci : Nat) (delta : String)
    (hacc : shouldAcceptResponse st.active_response_id rid = true)
    (hdec : b64Decode delta = none) :
    (handleServerEvent cfg st
        (ServerEvent.ResponseOutputAudioDelta eid rid iid oi ci delta)).2.voice =
      [VoiceEvent.DecodeError base64DecodeErrorMessage] ∧
    (handleServerEvent cfg st
        (ServerEvent.ResponseOutputAudioDelta eid rid iid oi ci delta)).2.audio = [] ∧
    (handleServerEvent cfg st
        (ServerEvent.ResponseOutputAudioDelta eid rid iid oi ci delta)).2.events =
      [SdkEvent.AudioDelta rid iid oi ci delta] ∧
    (handleServerEvent cfg st
        (ServerEvent.ResponseOutputAudioDelta eid rid iid oi ci delta)).1 = st := by
  refine ⟨?_, ?_, ?_, ?_⟩ <;>
    simp [handleServerEvent, handleResponseLifecycle, handleSpeechEvents,
      handleAudioEvents, handleTranscriptEvents, hacc, hdec, SdkEvent.fromServer,
      mapResponseRef, mapResponseText, mapResponseAudio]

/-- Witness for C10: a gated but undecodable delta yields the decode-error
voice event. -/
theorem gated_audio_decode_failure_witness :
    (handleServerEvent witnessConfig ⟨some "resp_1", fun _ => none⟩
        (ServerEvent.ResponseOutputAudioDelta "evt_1" "resp_1" "item_1" 0 0 "****")).2.voice =
      [VoiceEvent.DecodeError base64DecodeErrorMessage] :=
  (gated_audio_decode_failure witnessConfig ⟨some "resp_1", fun _ => none⟩
    "evt_1" "resp_1" "item_1" 0 0 "****" (by decide) (by decide)).1

/-- Appending to the empty string is the identity. -/
theorem empty_string_append (s : String) : "" ++ s = s := rfl

/-- A text delta only touches its buffer: no channel receives anything except
the classified stream. -/
theorem handleServerEvent_textDelta (cfg : ActorConfig) (st : SessionState)
    (eid rid iid : String) (oi ci : Nat) (dl : String) :
    handleServerEvent cfg st (ServerEvent.ResponseOutputTextDelta eid rid iid oi ci dl) =
      ({ st with buffers := buffersAppend st.buffers (iid, ci) dl },
        ⟨[], [SdkEvent.TextDelta rid iid oi ci dl], [], [], [], []⟩) := rfl

/-- A text done removes its buffer and publishes exactly the terminal text on
the completed-text channel (besides the classified stream). -/
theorem handleServerEvent_textDone (cfg : ActorConfig) (st : SessionState)
    (eid rid iid : String) (oi ci : Nat) (text : String) :
    handleServerEvent cfg st (ServerEvent.ResponseOutputTextDone eid rid iid oi ci text) =
      ({ st with buffers := buffersRemove st.buffers (iid, ci) },
        ⟨[], [SdkEvent.TextDone rid iid oi ci text], [text], [], [], []⟩) := rfl

/-- C5: any number of text deltas for one (item id, content index) key followed
by one text-done publish exactly one value on the completed-text stream — the
done notification's text field, not a concatenation of the deltas — and the
done step removes the internal buffer for that key, so a subsequent delta
starts a fresh buffer containing just its own delta. -/
theorem text_done_publishes_terminal_value (cfg : ActorConfig) (st : SessionState)
    (item_id : String) (content_index : Nat) (L : List ServerEvent)
    (hL : ∀ e ∈ L, ∃ eid rid oi dl,
        e = ServerEvent.ResponseOutputTextDelta eid rid item_id oi content_index dl)
    (eidD ridD : String) (oiD : Nat) (text : String)
    (eid2 rid2 : String) (oi2 : Nat) (d : String) :
    (runEvents cfg st (L ++
        [ServerEvent.ResponseOutputTextDone eidD ridD item_id oiD content_index
          text])).2.texts = [text] ∧
    (runEvents cfg st (L ++
        [ServerEvent.ResponseOutputTextDone eidD ridD item_id oiD content_index
          text])).1.buffers (item_id, content_index) = none ∧
    (runEvents cfg st (L ++
        [ServerEvent.ResponseOutputTextDone eidD ridD item_id oiD content_index text,
         ServerEvent.ResponseOutputTextDelta eid2 rid2 item_id oi2 content_index
           d])).1.buffers (item_id, content_index) = some d := by
  induction L generalizing st with
  | nil =>
      refine ⟨?_, ?_, ?_⟩ <;>
        simp [runEvents, handleServerEvent_textDone, handleServerEvent_textDelta,
          Outputs.append, Outputs.empty, buffersRemove, buffersAppend,
          empty_string_append]
  | cons e rest ih =>
      obtain ⟨eid, rid, oi, dl, rfl⟩ := hL e (List.mem_cons_self e rest)
      have hrest : ∀ e ∈ rest, ∃ eid rid oi dl,
          e = ServerEvent.ResponseOutputTextDelta eid rid item_id oi content_index dl :=
        fun e he => hL e (List.mem_cons_of_mem _ he)
      have ihst := ih { st with
        buffers := buffersAppend st.buffers (item_id, content_index) dl } hrest
      obtain ⟨ih1, ih2, ih3⟩ := ihst
      refine ⟨?_, ?_, ?_⟩
      · simpa [runEvents, handleServerEvent_textDelta, Outputs.append] using ih1
      · simpa [runEvents, handleServerEvent_textDelta, Outputs.append] using ih2
      · simpa [runEvents, handleServerEvent_textDelta, Outputs.append] using ih3

/-- Witness for C5: two deltas whose concatenation differs from the done text
publish exactly the done text. -/
theorem text_done_publishes_terminal_value_witness :
    (runEvents witnessConfig initialState
        ([ServerEvent.ResponseOutputTextDelta "e1" "r1" "item_1" 0 0 "hel",
          ServerEvent.ResponseOutputTextDelta "e2" "r1" "item_1" 0 0 "lo"] ++
          [ServerEvent.ResponseOutputTextDone "e3" "r1" "item_1" 0 0
            "hello world"])).2.texts = ["hello world"] :=
  (text_done_publishes_terminal_value witnessConfig initialState "item_1" 0
    [ServerEvent.ResponseOutputTextDelta "e1" "r1" "item_1" 0 0 "hel",
      ServerEvent.ResponseOutputTextDelta "e2" "r1" "item_1" 0 0 "lo"]
    (by intro e he; simp at he; rcases he with rfl | rfl <;> exact ⟨_, _, _, _, rfl⟩)
    "e3" "r1" 0 "hello world" "e4" "r1" 0 "x").1

/-- Registry dispatch returns the call's own id unchanged whenever it
succeeds (tools.rs 197-206). -/
theorem dispatch_ok_call_id (r : ToolRegistry) (call : ToolCall) (tr : ToolResult)
    (h : r.dispatch call = Except.ok tr) : tr.call_id = call.call_id := by
  unfold ToolRegistry.dispatch at h
  split at h
  · exact absurd h (by simp)
  · split at h
    · exact absurd h (by simp)
    · injection h with h
      subst h
      rfl

/-- The tool-completion notification only writes to the connection (besides
the classified stream): no text, voice, audio or transcript output, and the
state is unchanged. -/
theorem handleServerEvent_toolDone (cfg : ActorConfig) (st : SessionState)
    (eid rid iid : String) (oi : Nat) (cid name args : String) :
    handleServerEvent cfg st
        (ServerEvent.ResponseFunctionCallArgumentsDone eid rid iid oi cid name args) =
      (st, ⟨handleToolCompletion cfg rid iid oi cid name args,
        [SdkEvent.ToolCall rid iid oi cid name args], [], [], [], []⟩) := rfl

/-- C3 counterexample: with auto-follow-up enabled but the tool dispatch
failing (unknown tool), the actor sends exactly one command — the error-object
function-call-output item — and no response-create command, refuting the
claim's unconditional "follow-up if and only if auto-follow-up is enabled". -/
theorem tool_follow_up_iff_auto_counterexample :
    witnessConfig.auto_tool_response = true ∧
    List.filter isResponseCreateEvent
        (handleServerEvent witnessConfig initialState
          (ServerEvent.ResponseFunctionCallArgumentsDone "evt_1" "resp_1" "item_1" 0
            "call_1" "missing_tool" "nope")).2.sent = [] ∧
    (handleServerEvent witnessConfig initialState
        (ServerEvent.ResponseFunctionCallArgumentsDone "evt_1" "resp_1" "item_1" 0
          "call_1" "missing_tool" "nope")).2.sent.length = 1 := by
  refine ⟨rfl, ?_, ?_⟩ <;> rfl

/-- C3 (amended): a function-call-arguments-done notification handled through
the registry produces exactly one function-call-output conversation-item
command carrying the notification's call id; the follow-up response-create
command comes immediately after it if and only if auto-follow-up is enabled
AND the dispatch succeeded; when the tool handler fails the single output
item's payload is the rendered error object, and the step never aborts (the
transition is total). -/
theorem tool_completion_output (cfg : ActorConfig) (st : SessionState)
    (eid rid iid : String) (oi : Nat) (cid name args : String)
    (hno : cfg.handlers.on_tool_call = none) :
    fnOutputCallIds
        (handleServerEvent cfg st
          (ServerEvent.ResponseFunctionCallArgumentsDone eid rid iid oi cid name
            args)).2.sent = [cid] ∧
    (∃ payload,
      (handleServerEvent cfg st
          (ServerEvent.ResponseFunctionCallArgumentsDone eid rid iid oi cid name
            args)).2.sent =
        ClientEvent.ConversationItemCreate none none
            (Item.FunctionCallOutput none cid payload) ::
          (if cfg.auto_tool_response &&
              (cfg.tools.dispatch
                ⟨name, cid, (cfg.parseJsonStr args).getD (Json.str args), some rid,
                  some iid, some oi⟩).isOk then
            [ClientEvent.ResponseCreate none none]
          else [])) ∧
    (∀ err,
      cfg.tools.dispatch
          ⟨name, cid, (cfg.parseJsonStr args).getD (Json.str args), some rid, some iid,
            some oi⟩ = Except.error err →
      (handleServerEvent cfg st
          (ServerEvent.ResponseFunctionCallArgumentsDone eid rid iid oi cid name
            args)).2.sent =
        [ClientEvent.ConversationItemCreate none none
          (Item.FunctionCallOutput none cid
            (Json.render (Json.obj [("error", Json.str err.toMessage)])))]) := by
  rw [handleServerEvent_toolDone]
  cases hres : cfg.tools.dispatch
      ⟨name, cid, (cfg.parseJsonStr args).getD (Json.str args), some rid, some iid,
        some oi⟩ with
  | ok tr =>
      have hcid : tr.call_id = cid := dispatch_ok_call_id _ _ _ hres
      refine ⟨?_, ⟨Json.render tr.output, ?_⟩, ?_⟩
      · cases hauto : cfg.auto_tool_response <;>
          simp [handleToolCompletion, hno, hres, hauto, fnOutputCallIds, hcid, Except.isOk, Except.toBool]
      · cases hauto : cfg.auto_tool_response <;>
          simp [handleToolCompletion, hno, hres, hauto, hcid, Except.isOk, Except.toBool]
      · intro err herr
        exact absurd herr (by simp)
  | error err0 =>
      refine ⟨?_, ⟨Json.render (Json.obj [("error", Json.str err0.toMessage)]), ?_⟩, ?_⟩
      · simp [handleToolCompletion, hno, hres, fnOutputCallIds]
      · simp [handleToolCompletion, hno, hres, Except.isOk, Except.toBool]
      · intro err herr
        injection herr with h
        subst h
        simp [handleToolCompletion, hno, hres]

/-- Witness for C3 (amended): a registered echo tool produces the output item
with the unchanged call id followed by the follow-up response-create. -/
theorem tool_completion_output_witness :
    fnOutputCallIds
        (handleServerEvent
          ⟨⟨none⟩, ToolRegistry.new.tool "echo" Json.null (fun j => Except.ok j), false,
            true, fun _ => none⟩
          initialState
          (ServerEvent.ResponseFunctionCallArgumentsDone "evt_1" "resp_1" "item_1" 0
            "call_1" "echo" "x")).2.sent = ["call_1"] :=
  (tool_completion_output
    ⟨⟨none⟩, ToolRegistry.new.tool "echo" Json.null (fun j => Except.ok j), false, true,
      fun _ => none⟩
    initialState "evt_1" "resp_1" "item_1" 0 "call_1" "echo" "x" rfl).1

/-- C9: registering two local tools under the same name keeps both descriptors
in the exported tool list (the merged list contains the name twice, in
registration order), while dispatch for that name runs the most recently
registered handler — the earlier handler is unreachable but still
advertised. -/
theorem duplicate_tool_registration (n d1 d2 : String) (s1 s2 : Json)
    (h1 h2 : ToolHandlerFn) (call : ToolCall) (hname : call.name = n) :
    ((ToolRegistry.new.toolWithDescription n d1 s1 h1).toolWithDescription n d2 s2
          h2).tryAsTools =
      Except.ok [Tool.Function n (some d1) s1, Tool.Function n (some d2) s2] ∧
    ((ToolRegistry.new.toolWithDescription n d1 s1 h1).toolWithDescription n d2 s2
          h2).dispatch call =
      (match h2 call.arguments with
        | Except.error e => Except.error e
        | Except.ok output => Except.ok ⟨call.call_id, output⟩) := by
  constructor
  · rfl
  · subst hname
    simp [ToolRegistry.dispatch, ToolRegistry.toolWithDescription, ToolRegistry.new,
      insertHandler, lookupHandler]

/-- Witness for C9: the second handler (identity) answers, not the first
(constant). -/
theorem duplicate_tool_registration_witness :
    ((ToolRegistry.new.toolWithDescription "echo" "first" Json.null
          (fun _ => Except.ok (Json.str "one"))).toolWithDescription "echo" "second"
          Json.null (fun j => Except.ok j)).dispatch
        ⟨"echo", "call_1", Json.bool true, none, none, none⟩ =
      Except.ok ⟨"call_1", Json.bool true⟩ :=
  (duplicate_tool_registration "echo" "first" "second" Json.null Json.null
    (fun _ => Except.ok (Json.str "one")) (fun j => Except.ok j)
    ⟨"echo", "call_1", Json.bool true, none, none, none⟩ rfl).2

/-- The byte-class test of the estimator agrees with decodability of a single
character. -/
theorem isValid_b64Val (c : Char) : isValidBase64Char c = (b64Val c).isSome := by
  dsimp only [isValidBase64Char, b64Val]
  split
  · rename_i h1
    simp only [Option.isSome_some, Bool.or_eq_true, Bool.and_eq_true, decide_eq_true_eq, beq_iff_eq]
    omega
  · split
    · rename_i h1 h2
      simp only [Option.isSome_some, Bool.or_eq_true, Bool.and_eq_true, decide_eq_true_eq, beq_iff_eq]
      omega
    · split
      · rename_i h1 h2 h3
        simp only [Option.isSome_some, Bool.or_eq_true, Bool.and_eq_true,
          decide_eq_true_eq, beq_iff_eq]
        omega
      · split
        · rename_i h1 h2 h3 h4
          simp only [Option.isSome_some, Bool.or_eq_true, Bool.and_eq_true,
            decide_eq_true_eq, beq_iff_eq]
          omega
        · split
          · rename_i h1 h2 h3 h4 h5
            simp only [Option.isSome_some, Bool.or_eq_true, Bool.and_eq_true,
              decide_eq_true_eq, beq_iff_eq]
            omega
          · rename_i h1 h2 h3 h4 h5
            simp only [Option.isSome_none]
            refine Bool.eq_false_iff.mpr ?_
            intro hcontra
            simp only [Bool.or_eq_true, Bool.and_eq_true, decide_eq_true_eq,
              beq_iff_eq] at hcontra
            omega

/-- A decodable character is in the estimator's alphabet and is not the pad. -/
theorem b64Val_valid {c : Char} {v : Nat} (h : b64Val c = some v) :
    isValidBase64Char c = true ∧ c ≠ '=' := by
  constructor
  · rw [isValid_b64Val, h]
    rfl
  · intro hc
    subst hc
    rw [show b64Val (Char.ofNat 61) = none from rfl] at h
    exact Option.noConfusion h

/-- The estimator's scanning loop walks over an alphabet (non-pad) character
unchanged. -/
theorem estimateLoop_cons_valid {c : Char} (hval : isValidBase64Char c = true)
    (hne : c ≠ '=') (l : List Char) (p : Nat) :
    estimateLoop (c :: l) p false = estimateLoop l p false := by
  simp [estimateLoop, hne, hval]

/-- A full (pad-free) quantum decodes to three bytes and consists of alphabet
characters. -/
theorem decodeQuantum_some {a b c d : Char} {bs : List Nat}
    (h : decodeQuantum a b c d = some bs) :
    bs.length = 3 ∧ ∀ ch ∈ [a, b, c, d], isValidBase64Char ch = true ∧ ch ≠ '=' := by
  unfold decodeQuantum at h
  split at h
  · rename_i w x y z hw hx hy hz
    injection h with h
    subst h
    refine ⟨rfl, ?_⟩
    intro ch hch
    simp only [List.mem_cons, List.not_mem_nil, or_false] at hch
    rcases hch with rfl | rfl | rfl | rfl
    exacts [b64Val_valid hw, b64Val_valid hx, b64Val_valid hy, b64Val_valid hz]
  · exact absurd h (by simp)

/-- The estimator's loop accepts exactly the pad count of a decodable final
quantum, and the decoded byte count plus the pad count is three. -/
theorem decodeFinalQuantum_estimateLoop {a b c d : Char} {bs : List Nat}
    (h : decodeFinalQuantum a b c d = some bs) :
    ∃ p, p ≤ 2 ∧ estimateLoop [a, b, c, d] 0 false = Except.ok p ∧ bs.length + p = 3 := by
  unfold decodeFinalQuantum at h
  by_cases hd : d = '='
  · rw [if_pos hd] at h
    by_cases hc : c = '='
    · rw [if_pos hc] at h
      split at h
      · rename_i w x hw hx
        injection h with h
        subst h
        obtain ⟨hva, hna⟩ := b64Val_valid hw
        obtain ⟨hvb, hnb⟩ := b64Val_valid hx
        refine ⟨2, by omega, ?_, rfl⟩
        subst hd hc
        rw [estimateLoop_cons_valid hva hna, estimateLoop_cons_valid hvb hnb]
        rfl
      · exact absurd h (by simp)
    · rw [if_neg hc] at h
      split at h
      · rename_i w x y hw hx hy
        injection h with h
        subst h
        obtain ⟨hva, hna⟩ := b64Val_valid hw
        obtain ⟨hvb, hnb⟩ := b64Val_valid hx
        obtain ⟨hvc, hnc⟩ := b64Val_valid hy
        refine ⟨1, by omega, ?_, rfl⟩
        subst hd
        rw [estimateLoop_cons_valid hva hna, estimateLoop_cons_valid hvb hnb,
          estimateLoop_cons_valid hvc hnc]
        rfl
      · exact absurd h (by simp)
  · rw [if_neg hd] at h
    obtain ⟨hlen, hall⟩ := decodeQuantum_some h
    have ha := hall a (by simp)
    have hb := hall b (by simp)
    have hc' := hall c (by simp)
    have hd' := hall d (by simp)
    refine ⟨0, by omega, ?_, by omega⟩
    rw [estimateLoop_cons_valid ha.1 ha.2, estimateLoop_cons_valid hb.1 hb.2,
      estimateLoop_cons_valid hc'.1 hc'.2, estimateLoop_cons_valid hd'.1 hd'.2]
    rfl

/-- The length/padding bookkeeping of the estimator agrees with the reference
decoder on every decodable character list. -/
theorem b64DecodeList_estimateLoop :
    ∀ (l : List Char) (bs : List Nat), b64DecodeList l = some bs →
      l.length % 4 = 0 ∧
      ∃ p, p ≤ 2 ∧ estimateLoop l 0 false = Except.ok p ∧
        bs.length + p = l.length / 4 * 3
  | [], bs, h => by
      injection h with h
      subst h
      exact ⟨rfl, 0, by omega, rfl, rfl⟩
  | [_], _, h => by simp [b64DecodeList] at h
  | [_, _], _, h => by simp [b64DecodeList] at h
  | [_, _, _], _, h => by simp [b64DecodeList] at h
  | a :: b :: c :: d :: r :: rs, bs, h => by
      simp only [b64DecodeList] at h
      split at h
      · rename_i bs0 tl hq htl
        injection h with h
        subst h
        obtain ⟨hlen0, hall⟩ := decodeQuantum_some hq
        obtain ⟨hmod, p, hp, hloop, hlen⟩ := b64DecodeList_estimateLoop (r :: rs) tl htl
        have ha := hall a (by simp)
        have hb := hall b (by simp)
        have hc' := hall c (by simp)
        have hd' := hall d (by simp)
        refine ⟨?_, p, hp, ?_, ?_⟩
        · simp only [List.length_cons] at hmod ⊢
          omega
        · rw [estimateLoop_cons_valid ha.1 ha.2, estimateLoop_cons_valid hb.1 hb.2,
            estimateLoop_cons_valid hc'.1 hc'.2, estimateLoop_cons_valid hd'.1 hd'.2]
          exact hloop
        · simp only [List.length_append, List.length_cons, hlen0] at hlen ⊢
          simp only [List.length_cons] at hmod
          omega
      · exact absurd h (by simp)
  | a :: b :: c :: d :: [], bs, h => by
      simp only [b64DecodeList] at h
      obtain ⟨p, hp, hloop, hlen⟩ := decodeFinalQuantum_estimateLoop h
      exact ⟨by simp, p, hp, hloop, by simpa using hlen⟩

/-- C6: for every base64 string the reference decoder accepts — length a
multiple of four, characters from the standard alphabet, zero to two `=` pads
only at the end — the analytically computed decoded length
(`encoded length / 4 * 3` minus the pad count) equals the true decoded byte
length; the computation inspects only the encoded bytes. -/
theorem estimate_matches_decoded_length (s : String) (bs : List Nat)
    (h : b64Decode s = some bs) :
    estimateBase64DecodedLen s = Except.ok bs.length := by
  obtain ⟨hmod, p, hp, hloop, hlen⟩ := b64DecodeList_estimateLoop s.data bs h
  simp only [estimateBase64DecodedLen, hmod, hloop]
  rw [if_neg (by omega)]
  rw [if_neg (by omega)]
  congr 1
  omega

/-- Witness for C6: a one-pad string of true decoded length two. -/
theorem estimate_matches_decoded_length_witness :
    estimateBase64DecodedLen "QUI=" = Except.ok 2 :=
  estimate_matches_decoded_length "QUI=" [65, 66] (by decide)

/-- C1 counterexample: when no response is active, an audio delta carrying any
response id passes the gate (`should_accept_response` returns `true` for
`None`) and IS delivered on the voice and audio channels, although its carried
id equals no current active response id — refuting the claim's unconditional
"delivered only if the carried id equals the current active response id". -/
theorem audio_gate_counterexample :
    initialState.active_response_id = none ∧
    (handleServerEvent witnessConfig initialState
        (ServerEvent.ResponseOutputAudioDelta "evt_1" "X" "item_1" 0 0 "QUI=")).2.audio =
      [⟨"X", "item_1", 0, 0, [65, 66]⟩] ∧
    (handleServerEvent witnessConfig initialState
        (ServerEvent.ResponseOutputAudioDelta "evt_1" "X" "item_1" 0 0 "QUI=")).2.voice =
      [VoiceEvent.AudioDelta "X" "item_1" 0 0 [65, 66]] := by
  refine ⟨rfl, ?_, ?_⟩ <;> rfl

/-- C1 (amended): when an active response id exists, audio and transcript
delta/done notifications are delivered on the voice/audio/transcript channels
if and only if their carried response id equals it: a mismatching notification
produces nothing on those channels but is still delivered on the generic
classified-event stream, while a matching one is delivered; when no response
is active, the gate accepts every carried id (see the counterexample). -/
theorem audio_transcript_response_gating (cfg : ActorConfig) (st : SessionState)
    (x y eid iid : String) (oi ci : Nat) (dl trs : String) (itm : Option Item)
    (hact : st.active_response_id = some y) (hne : x ≠ y) :
    ((handleServerEvent cfg st
        (ServerEvent.ResponseOutputAudioDelta eid x iid oi ci dl)).2.voice = [] ∧
      (handleServerEvent cfg st
        (ServerEvent.ResponseOutputAudioDelta eid x iid oi ci dl)).2.audio = [] ∧
      (handleServerEvent cfg st
        (ServerEvent.ResponseOutputAudioDelta eid x iid oi ci dl)).2.events =
        [SdkEvent.AudioDelta x iid oi ci dl]) ∧
    ((handleServerEvent cfg st
        (ServerEvent.ResponseOutputAudioDone eid x iid oi ci itm)).2.voice = [] ∧
      (handleServerEvent cfg st
        (ServerEvent.ResponseOutputAudioDone eid x iid oi ci itm)).2.events =
        [SdkEvent.AudioDone x iid oi ci itm]) ∧
    ((handleServerEvent cfg st
        (ServerEvent.ResponseOutputAudioTranscriptDelta eid x iid oi ci dl)).2.voice =
        [] ∧
      (handleServerEvent cfg st
        (ServerEvent.ResponseOutputAudioTranscriptDelta eid x iid oi ci
          dl)).2.transcripts = [] ∧
      (handleServerEvent cfg st
        (ServerEvent.ResponseOutputAudioTranscriptDelta eid x iid oi ci dl)).2.events =
        [SdkEvent.TranscriptDelta x iid oi ci dl]) ∧
    ((handleServerEvent cfg st
        (ServerEvent.ResponseOutputAudioTranscriptDone eid x iid oi ci trs)).2.voice =
        [] ∧
      (handleServerEvent cfg st
        (ServerEvent.ResponseOutputAudioTranscriptDone eid x iid oi ci
          trs)).2.transcripts = [] ∧
      (handleServerEvent cfg st
        (ServerEvent.ResponseOutputAudioTranscriptDone eid x iid oi ci trs)).2.events =
        [SdkEvent.TranscriptDone x iid oi ci trs]) ∧
    (∀ pcm, b64Decode dl = some pcm →
      (handleServerEvent cfg st
        (ServerEvent.ResponseOutputAudioDelta eid y iid oi ci dl)).2.audio =
        [⟨y, iid, oi, ci, pcm⟩]) ∧
    (handleServerEvent cfg st
        (ServerEvent.ResponseOutputAudioTranscriptDelta eid y iid oi ci
          dl)).2.transcripts = [⟨y, iid, oi, ci, dl, false⟩] := by
  have hne' : ¬(y = x) := fun hyx => hne hyx.symm
  refine ⟨⟨?_, ?_, ?_⟩, ⟨?_, ?_⟩, ⟨?_, ?_, ?_⟩, ⟨?_, ?_, ?_⟩, ?_, ?_⟩ <;>
    first
    | (intro pcm hdec
       simp [handleServerEvent, handleResponseLifecycle, handleSpeechEvents,
         handleAudioEvents, handleTranscriptEvents, shouldAcceptResponse, hact, hne',
         hdec, SdkEvent.fromServer, mapResponseRef, mapResponseText, mapResponseAudio,
         mapResponseContent, mapResponseTool])
    | simp [handleServerEvent, handleResponseLifecycle, handleSpeechEvents,
        handleAudioEvents, handleTranscriptEvents, shouldAcceptResponse, hact, hne',
        SdkEvent.fromServer, mapResponseRef, mapResponseText, mapResponseAudio,
        mapResponseContent, mapResponseTool]

/-- Witness for C1 (amended): a mismatching audio delta yields nothing on the
decoded-audio channel. -/
theorem audio_transcript_response_gating_witness :
    (handleServerEvent witnessConfig ⟨some "Y", fun _ => none⟩
        (ServerEvent.ResponseOutputAudioDelta "e1" "X" "item_1" 0 0 "QUI=")).2.audio =
      [] :=
  ((audio_transcript_response_gating witnessConfig ⟨some "Y", fun _ => none⟩ "X" "Y"
    "e1" "item_1" 0 0 "QUI=" "t" none rfl (by decide)).1).2.1

/-- C7: an input-audio append whose payload fails base64 validation or whose
estimated decoded size exceeds 15 MiB is rejected synchronously with a
validation error, and zero frames are written to the connection for that
call. -/
theorem append_validation_blocks_send
    (validateSessionUpdate : SessionUpdatePayload → Except Error Unit)
    (validateResponseConfig : ResponseConfigPayload → Except Error Unit)
    (encodeClientEvent : ClientEvent → String)
    (eid : Option String) (audio : String)
    (hbad : (∃ msg, estimateBase64DecodedLen audio = Except.error msg) ∨
      (∃ n, estimateBase64DecodedLen audio = Except.ok n ∧
        MAX_INPUT_AUDIO_CHUNK_BYTES < n)) :
    ∃ msg,
      realtimeClientSend validateSessionUpdate validateResponseConfig encodeClientEvent
          (ClientEvent.InputAudioBufferAppend eid audio) =
        (Except.error (Error.invalidClientEvent msg), []) := by
  rcases hbad with ⟨msg, hmsg⟩ | ⟨n, hn, hlt⟩
  · exact ⟨msg, by simp [realtimeClientSend, validateClientEvent, hmsg]⟩
  · refine ⟨"input_audio_buffer.append exceeds 15MB (" ++ toString n ++ " bytes)", ?_⟩
    simp [realtimeClientSend, validateClientEvent, hn, hlt]

/-- Witness for C7: a malformed payload (length not a multiple of four) is
rejected and no frame is written. -/
theorem append_validation_blocks_send_witness :
    ∃ msg,
      realtimeClientSend (fun _ => Except.ok ()) (fun _ => Except.ok ()) (fun _ => "")
          (ClientEvent.InputAudioBufferAppend none "A") =
        (Except.error (Error.invalidClientEvent msg), []) :=
  append_validation_blocks_send (fun _ => Except.ok ()) (fun _ => Except.ok ())
    (fun _ => "") none "A"
    (Or.inl ⟨"input_audio_buffer.append invalid base64 length", rfl⟩)

end OaiRt
